import Mathlib

/-!
Verification of the paybadge SVG badge generator
(`validateBadgeParams` / `sanitizeText` / `calculateTextWidth` /
`generateCryptoIcon` / `generateBadgeSVG` / `generateEnhancedBadge`).

Modelling conventions, chosen to match the observable behaviour of the
JavaScript source:

* JS strings are modelled as Lean `String` (sequences of code points; the
  source only distinguishes code units for `.length`, and every input the
  spec discusses is ASCII, where the notions agree).
* A missing/`undefined`/`null` field of the raw options object is modelled
  as `""`: the source treats `undefined` and `""` identically everywhere
  (`params.leftText || ''`, `options.text` truthiness, the `typeof` guard
  in `sanitizeText`, `options.icon || 'crypto'`, and `DEFAULT_CONFIG.icon
  = null` which is only ever used through truthiness tests).
* JS number arithmetic in the layout engine only produces multiples of
  one tenth (`fontSize * 0.6 = 6.6`); it is modelled exactly in tenths of
  a pixel as `Nat`.  (The JS engine would print tiny binary-float noise
  such as `64.80000000000001`; we print the exact decimal instead.  No
  claim depends on those digits.)
* `decodeURIComponent` is modelled as percent-byte decoding followed by
  UTF-8 decoding, returning `none` (JS: `URIError`) on a malformed `%`
  escape or an invalid byte sequence; `sanitizeText` falls back to the
  raw string in that case, exactly as the source's `try`/`catch` does.
* Each global, single-pass `String.prototype.replace` of the sanitizer is
  modelled as a single left-to-right scan that never rescans the region
  preceding a removed match, which is the actual JS semantics.
-/

namespace PayBadge

/-! ### Model of `decodeURIComponent` -/

/-- Value of a hexadecimal digit, or `none`. -/
def hexDigitVal (c : Char) : Option Nat :=
  if '0' ≤ c ∧ c ≤ '9' then some (c.toNat - 48)
  else if 'A' ≤ c ∧ c ≤ 'F' then some (c.toNat - 55)
  else if 'a' ≤ c ∧ c ≤ 'f' then some (c.toNat - 87)
  else none

/-- UTF-8 bytes of the code point `n`. -/
def utf8EncodeChar (n : Nat) : List Nat :=
  if n < 128 then [n]
  else if n < 2048 then [192 + n / 64, 128 + n % 64]
  else if n < 65536 then [224 + n / 4096, 128 + n / 64 % 64, 128 + n % 64]
  else [240 + n / 262144, 128 + n / 4096 % 64, 128 + n / 64 % 64, 128 + n % 64]

/-- Turn a percent-encoded character sequence into the byte sequence it
denotes: `%hh` contributes the byte `hh`; any other character contributes
its own UTF-8 bytes.  `none` on a malformed escape (JS: `URIError`). -/
def percentDecodeBytes : List Char → Option (List Nat)
  | [] => some []
  | '%' :: c1 :: c2 :: rest =>
    match hexDigitVal c1, hexDigitVal c2, percentDecodeBytes rest with
    | some h, some l, some bs => some ((16 * h + l) :: bs)
    | _, _, _ => none
  | '%' :: _ => none
  | c :: rest =>
    match percentDecodeBytes rest with
    | some bs => some (utf8EncodeChar c.toNat ++ bs)
    | none => none

/-- Is `b` a UTF-8 continuation byte? -/
def isContByte (b : Nat) : Bool := 128 ≤ b && b < 192

/-- UTF-8 decoding of a byte sequence; `none` on an invalid sequence.
Overlong encodings (lead byte `0xC0`/`0xC1`; `0xE0` with a second byte
below `0xA0`; `0xF0` with a second byte below `0x90`), surrogate
encodings (`0xED` with a second byte of `0xA0` or above) and code
points beyond `U+10FFFF` (`0xF4` with a second byte of `0x90` or
above, or a lead byte of `0xF5`..`0xFF`) are rejected, exactly as JS
`decodeURIComponent` throws `URIError` on them. -/
def utf8DecodeBytes : List Nat → Option (List Char)
  | [] => some []
  | b :: rest =>
    if b < 128 then
      match utf8DecodeBytes rest with
      | some cs => some (Char.ofNat b :: cs)
      | none => none
    else if b < 194 then none
    else if b < 224 then
      match rest with
      | b1 :: rest2 =>
        if isContByte b1 then
          match utf8DecodeBytes rest2 with
          | some cs => some (Char.ofNat ((b - 192) * 64 + (b1 - 128)) :: cs)
          | none => none
        else none
      | [] => none
    else if b < 240 then
      match rest with
      | b1 :: b2 :: rest3 =>
        if isContByte b1 ∧ isContByte b2 ∧ (b = 224 → 160 ≤ b1) ∧ (b = 237 → b1 < 160) then
          match utf8DecodeBytes rest3 with
          | some cs =>
            some (Char.ofNat ((b - 224) * 4096 + (b1 - 128) * 64 + (b2 - 128)) :: cs)
          | none => none
        else none
      | _ => none
    else if b < 245 then
      match rest with
      | b1 :: b2 :: b3 :: rest4 =>
        if isContByte b1 ∧ isContByte b2 ∧ isContByte b3 ∧
            (b = 240 → 144 ≤ b1) ∧ (b = 244 → b1 < 144) then
          match utf8DecodeBytes rest4 with
          | some cs =>
            some (Char.ofNat ((b - 240) * 262144 + (b1 - 128) * 4096 +
                              (b2 - 128) * 64 + (b3 - 128)) :: cs)
          | none => none
        else none
      | _ => none
    else none

/-- Model of `decodeURIComponent`: `none` means the JS builtin throws. -/
def decodeURIComponentOpt (s : String) : Option String :=
  match percentDecodeBytes s.data with
  | some bs =>
    match utf8DecodeBytes bs with
    | some cs => some (String.mk cs)
    | none => none
  | none => none

/-! ### The sanitizer's replacement passes -/

/-!
The four scanning passes below consume at least one character per step,
so running them with `l.length` units of fuel is exact; the explicit
fuel makes the recursion structural (hence kernel-computable — the
zero-fuel branches are unreachable).
-/

/-- `.replace(/<[^>]*>/g, '')`: a match starts at each `'<'` that has a
later `'>'` and extends through the first such `'>'` (`[^>]*` cannot
cross a `'>'`, and a `'<'` with no later `'>'` matches nothing);
scanning resumes after the match (single pass). -/
def stripTagsGo : Nat → List Char → List Char
  | _, [] => []
  | 0, l => l
  | fuel + 1, c :: rest =>
    if c = '<' ∧ rest.contains '>' then
      stripTagsGo fuel ((rest.dropWhile (fun x => x ≠ '>')).drop 1)
    else c :: stripTagsGo fuel rest

def stripTags (l : List Char) : List Char := stripTagsGo l.length l

/-- Case-insensitive prefix test against an already-lowercase ASCII
pattern (the semantics of a literal pattern under the JS `/i` flag). -/
def lowerPrefix : List Char → List Char → Bool
  | [], _ => true
  | _ :: _, [] => false
  | p :: ps, c :: cs => (c.toLower = p) && lowerPrefix ps cs

/-- `.replace(/pat/gi, '')` for a literal pattern: one left-to-right
pass, skipping each match, never rescanning across a removal boundary. -/
def removeAllCIGo (pat : List Char) : Nat → List Char → List Char
  | _, [] => []
  | 0, l => l
  | fuel + 1, c :: rest =>
    if lowerPrefix pat (c :: rest) then removeAllCIGo pat fuel (rest.drop (pat.length - 1))
    else c :: removeAllCIGo pat fuel rest

def removeAllCI (pat l : List Char) : List Char := removeAllCIGo pat l.length l

/-- JS `\w`: `[A-Za-z0-9_]`. -/
def isWordChar (c : Char) : Bool := c.isAlphanum || c = '_'

/-- JS `\s` (the whitespace class used by `trim` as well).  We cover the
ASCII members plus the common Unicode ones; no claim exercises the
exotic members. -/
def isJsSpace (c : Char) : Bool :=
  c = ' ' || c = '\t' || c = '\n' || c = '\r' ||
  c.toNat = 11 || c.toNat = 12 || c.toNat = 160 || c.toNat = 65279 ||
  (8192 ≤ c.toNat && c.toNat ≤ 8202) ||
  c.toNat = 5760 || c.toNat = 8232 || c.toNat = 8233 ||
  c.toNat = 8239 || c.toNat = 8287 || c.toNat = 12288

/-- Length of the match of `/on\w+\s*=/i` at the head of `l`, if any.
(`\w+` and `\s*` are effectively possessive here: no character of `\w`
is `'='` or a space, so regex backtracking can never succeed.) -/
def eventHandlerLen (l : List Char) : Option Nat :=
  match l with
  | c1 :: c2 :: rest =>
    if c1.toLower = 'o' ∧ c2.toLower = 'n' then
      let w := rest.takeWhile isWordChar
      if w.length = 0 then none
      else
        let afterW := rest.drop w.length
        let s := afterW.takeWhile isJsSpace
        match afterW.drop s.length with
        | '=' :: _ => some (2 + w.length + s.length + 1)
        | _ => none
    else none
  | _ => none

/-- `.replace(/on\w+\s*=/gi, '')`, single pass. -/
def removeEventHandlersGo : Nat → List Char → List Char
  | _, [] => []
  | 0, l => l
  | fuel + 1, c :: rest =>
    match eventHandlerLen (c :: rest) with
    | some n => removeEventHandlersGo fuel (rest.drop (n - 1))
    | none => c :: removeEventHandlersGo fuel rest

def removeEventHandlers (l : List Char) : List Char := removeEventHandlersGo l.length l

/-- Length of the alternation `/script|alert|eval|prompt|confirm/i`
matched at the head of `l` (the five branches start with distinct
letters, so at most one can match at a given position). -/
def keywordLen (l : List Char) : Option Nat :=
  if lowerPrefix ("script").data l then some 6
  else if lowerPrefix ("alert").data l then some 5
  else if lowerPrefix ("eval").data l then some 4
  else if lowerPrefix ("prompt").data l then some 6
  else if lowerPrefix ("confirm").data l then some 7
  else none

/-- `.replace(/script|alert|eval|prompt|confirm/gi, '')`, single pass. -/
def removeKeywordsGo : Nat → List Char → List Char
  | _, [] => []
  | 0, l => l
  | fuel + 1, c :: rest =>
    match keywordLen (c :: rest) with
    | some n => removeKeywordsGo fuel (rest.drop (n - 1))
    | none => c :: removeKeywordsGo fuel rest

def removeKeywords (l : List Char) : List Char := removeKeywordsGo l.length l

/-- The character class of `.replace(/[<>&"']/g, ...)`, whose every
replacement entry is the empty string. -/
def isDangerChar (c : Char) : Bool :=
  c = '<' || c = '>' || c = '&' || c = '"' || c = '\''

/-- `.replace(/[<>&"']/g, '')`: every occurrence is a 1-character match,
so the pass deletes all of them. -/
def stripDangerChars (l : List Char) : List Char :=
  l.filter (fun c => !(isDangerChar c))

/-- `.trim()`. -/
def trimJs (l : List Char) : List Char :=
  ((l.dropWhile isJsSpace).reverse.dropWhile isJsSpace).reverse

/-- `MAX_TEXT_LENGTH`. -/
def MAX_TEXT_LENGTH : Nat := 50

/-- `sanitizeText` from the source: decode (falling back to the raw text
on failure), then the five removal passes in source order, then trim and
truncate.  (`sanitized || ''` at the end of the source is the identity
on strings and is omitted.) -/
def sanitizeText (text : String) : String :=
  let decoded :=
    match decodeURIComponentOpt text with
    | some d => d
    | none => text
  let l1 := stripTags decoded.data
  let l2 := removeAllCI ("javascript:").data l1
  let l3 := removeAllCI ("vbscript:").data l2
  let l4 := removeEventHandlers l3
  let l5 := removeKeywords l4
  let l6 := stripDangerChars l5
  String.mk ((trimJs l6).take MAX_TEXT_LENGTH)

/-! ### Parameter validation -/

/-- The raw options object (recognized keys of the badge endpoints).
A missing key is `""`; see the modelling notes. -/
structure BadgeOptions where
  leftText : String := ""
  rightText : String := ""
  leftColor : String := ""
  rightColor : String := ""
  style : String := ""
  icon : String := ""
  text : String := ""
deriving Repr, DecidableEq

/-- The validated/sanitized parameter record (`validation.params`). -/
structure BadgeParams where
  leftText : String
  rightText : String
  leftColor : String
  rightColor : String
  style : String
  icon : String
deriving Repr, DecidableEq

/-- The shape of the object returned by `validateBadgeParams`. -/
structure ValidationResult where
  isValid : Bool
  params : Option BadgeParams
  error : Option String
deriving Repr, DecidableEq

/-- JS `x || d` for strings. -/
def orDefault (s d : String) : String := if s = "" then d else s

/-- `DEFAULT_CONFIG` entries used by the generator (`icon: null` is
modelled as `""`). -/
def defaultLeftText : String := "paybadge"

def defaultRightText : String := "crypto"

def defaultLeftColor : String := "#555"

def defaultRightColor : String := "#4c1"

def defaultStyle : String := "standard"

def fontFamily : String := "Verdana,Geneva,DejaVu Sans,sans-serif"

/-- Badge height in pixels (`DEFAULT_CONFIG.height`). -/
def heightPx : Nat := 20

/-- The `sanitized` object built inside `validateBadgeParams`, before
the color-format check. -/
def sanitizedParams (p : BadgeOptions) : BadgeParams :=
  { leftText := orDefault (sanitizeText p.leftText) defaultLeftText
    rightText := orDefault (sanitizeText p.rightText) defaultRightText
    leftColor := orDefault (sanitizeText p.leftColor) defaultLeftColor
    rightColor := orDefault (sanitizeText p.rightColor) defaultRightColor
    style := orDefault (sanitizeText p.style) defaultStyle
    icon := orDefault (sanitizeText p.icon) "" }

def isHexDigitChar (c : Char) : Bool :=
  ('0' ≤ c && c ≤ '9') || ('A' ≤ c && c ≤ 'F') || ('a' ≤ c && c ≤ 'f')

/-- `^#[0-9A-Fa-f]{3,6}$`. -/
def colorOk (s : String) : Bool :=
  match s.data with
  | '#' :: rest => decide (3 ≤ rest.length) && decide (rest.length ≤ 6) && rest.all isHexDigitChar
  | _ => false

/-- The `TextTooLong` message (the source interpolates
`MAX_TEXT_LENGTH`). -/
def textTooLongMsg : String :=
  "Text too long. Maximum " ++ toString MAX_TEXT_LENGTH ++ " characters allowed."

/-- `validateBadgeParams`.  The `catch` branch of the source is
unreachable (none of the operations on the success path can throw:
`decodeURIComponent` failures are already caught inside
`sanitizeText`), so the model has only the two reachable results. -/
def validateBadgeParams (p : BadgeOptions) : ValidationResult :=
  if p.leftText.length > MAX_TEXT_LENGTH ∨ p.rightText.length > MAX_TEXT_LENGTH then
    { isValid := false, params := none, error := some textTooLongMsg }
  else
    let s := sanitizedParams p
    let s' :=
      if !(colorOk s.leftColor) || !(colorOk s.rightColor) then
        { s with leftColor := defaultLeftColor, rightColor := defaultRightColor }
      else s
    { isValid := true, params := some s', error := none }

/-! ### Layout (in tenths of a pixel, exact) -/

/-- `calculateTextWidth(text)` with the default `fontSize = 11`:
`text.length * (11 * 0.6)` pixels, i.e. `66` tenths per character. -/
def calculateTextWidthT (text : String) : Nat := text.length * 66

/-- `padding = 12`. -/
def paddingT : Nat := 120

/-- `iconWidth = params.icon ? 16 : 0`. -/
def iconWidthT (q : BadgeParams) : Nat := if q.icon ≠ "" then 160 else 0

/-- `leftWidth = Math.max(leftTextWidth + padding, 55)`. -/
def leftWidthT (q : BadgeParams) : Nat :=
  max (calculateTextWidthT q.leftText + paddingT) 550

/-- `rightWidth = Math.max(rightTextWidth + padding + iconWidth, 55)`. -/
def rightWidthT (q : BadgeParams) : Nat :=
  max (calculateTextWidthT q.rightText + paddingT + iconWidthT q) 550

/-- `totalWidth = leftWidth + rightWidth`. -/
def totalWidthT (q : BadgeParams) : Nat := leftWidthT q + rightWidthT q

/-- `leftTextX = leftWidth / 2` (exact: all widths are even in tenths). -/
def leftTextXT (q : BadgeParams) : Nat := leftWidthT q / 2

/-- `rightTextX = leftWidth + rightWidth / 2`. -/
def rightTextXT (q : BadgeParams) : Nat := leftWidthT q + rightWidthT q / 2

/-- Decimal rendering of a tenths value, e.g. `550 ↦ "55"`,
`676 ↦ "67.6"`. -/
def tenthsStr (t : Nat) : String :=
  if t % 10 = 0 then toString (t / 10)
  else toString (t / 10) ++ "." ++ toString (t % 10)

/-! ### Icon glyphs and the SVG emitter -/

/-- The `crypto` entry of the icon dictionary in `generateCryptoIcon`. -/
def iconCryptoGlyph : String :=
  "<g transform=\"translate(8, 4)\">\n      <circle cx=\"6\" cy=\"6\" r=\"6\" fill=\"#f7931a\"/>\n      <path d=\"M8.5 4.5c.1-.8-.5-1.2-1.3-1.5l.3-1.1-.7-.2-.3 1.1c-.2 0-.3-.1-.5-.1l.3-1.1-.7-.2-.3 1.1c-.1 0-.3-.1-.4-.1l-.9-.2-.2.7s.5.1.5.1c.3.1.3.2.3.4l-.3 1.3c0 0 0 0 .1 0l-.1 0-.7 1.7c-.1.1-.2.3-.5.2 0 0-.5-.1-.5-.1l-.3.8.9.2.5.1-.3 1.1.7.2.3-1.1c.2 0 .4.1.5.1l-.3 1.1.7.2.3-1.1c1.1.2 2-.1 2.3-.9.3-.8 0-1.3-.6-1.6.4-.1.8-.4.8-1zm-1.5 2.1c-.2.8-1.6.4-2 .3l.4-1.5c.4.1 1.9.3 1.6 1.2zm.2-2.2c-.2.7-1.3.4-1.7.3l.3-1.3c.4.1 1.6.3 1.4 1z\" fill=\"white\"/>\n    </g>"

/-- The `bitcoin` entry (same path data as `crypto` in the source). -/
def iconBitcoinGlyph : String :=
  "<g transform=\"translate(8, 4)\">\n      <circle cx=\"6\" cy=\"6\" r=\"6\" fill=\"#f7931a\"/>\n      <path d=\"M8.5 4.5c.1-.8-.5-1.2-1.3-1.5l.3-1.1-.7-.2-.3 1.1c-.2 0-.3-.1-.5-.1l.3-1.1-.7-.2-.3 1.1c-.1 0-.3-.1-.4-.1l-.9-.2-.2.7s.5.1.5.1c.3.1.3.2.3.4l-.3 1.3c0 0 0 0 .1 0l-.1 0-.7 1.7c-.1.1-.2.3-.5.2 0 0-.5-.1-.5-.1l-.3.8.9.2.5.1-.3 1.1.7.2.3-1.1c.2 0 .4.1.5.1l-.3 1.1.7.2.3-1.1c1.1.2 2-.1 2.3-.9.3-.8 0-1.3-.6-1.6.4-.1.8-.4.8-1zm-1.5 2.1c-.2.8-1.6.4-2 .3l.4-1.5c.4.1 1.9.3 1.6 1.2zm.2-2.2c-.2.7-1.3.4-1.7.3l.3-1.3c.4.1 1.6.3 1.4 1z\" fill=\"white\"/>\n    </g>"

/-- The members every JS object literal inherits from
`Object.prototype`, paired with the text they stringify to when
interpolated into a template literal (Node/V8; `constructor` is the
`Object` function, `__proto__` is `Object.prototype` itself, the rest
are methods printed with their own names). -/
def objectProtoMembers : List (String × String) :=
  [("constructor", "function Object() \x7b [native code] \x7d"),
   ("hasOwnProperty", "function hasOwnProperty() \x7b [native code] \x7d"),
   ("isPrototypeOf", "function isPrototypeOf() \x7b [native code] \x7d"),
   ("propertyIsEnumerable", "function propertyIsEnumerable() \x7b [native code] \x7d"),
   ("toLocaleString", "function toLocaleString() \x7b [native code] \x7d"),
   ("toString", "function toString() \x7b [native code] \x7d"),
   ("valueOf", "function valueOf() \x7b [native code] \x7d"),
   ("__defineGetter__", "function __defineGetter__() \x7b [native code] \x7d"),
   ("__defineSetter__", "function __defineSetter__() \x7b [native code] \x7d"),
   ("__lookupGetter__", "function __lookupGetter__() \x7b [native code] \x7d"),
   ("__lookupSetter__", "function __lookupSetter__() \x7b [native code] \x7d"),
   ("__proto__", "[object Object]")]

/-- Prototype-chain hit for a name that is not an own property of the
icon dictionary, already in its template-interpolated string form. -/
def objectProtoLookup (name : String) : Option String :=
  (objectProtoMembers.find? (fun p => p.fst == name)).map (fun p => p.snd)

/-- `generateCryptoIcon`: `icons[iconType] || ''`.  The bracket lookup
checks the object's own keys (`crypto`, `bitcoin`) and then resolves
through the prototype chain, so an inherited `Object.prototype` member
name yields that member — a truthy value, which `|| ''` passes through
and the template literal later stringifies.  Since the only consumer
interpolates the result into the SVG string, the model returns the
interpolated text directly. -/
def generateCryptoIcon (iconType : String) : String :=
  if iconType = "crypto" then iconCryptoGlyph
  else if iconType = "bitcoin" then iconBitcoinGlyph
  else
    match objectProtoLookup iconType with
    | some s => s
    | none => ""

/-- The SVG template of `generateBadgeSVG`, with every `${...}`
interpolation made an explicit concatenation operand. -/
def svgOf (q : BadgeParams) : String :=
  let iconSvg := if q.icon ≠ "" then generateCryptoIcon q.icon else ""
  "<svg xmlns=\"http://www.w3.org/2000/svg\" " ++ "width=\"" ++ tenthsStr (totalWidthT q) ++
    "\" height=\"" ++ toString heightPx ++
    "\" role=\"img\" aria-label=\"" ++ q.leftText ++ ": " ++ q.rightText ++ "\">\n" ++
  "  <title>" ++ q.leftText ++ ": " ++ q.rightText ++ "</title>\n" ++
  "  <linearGradient id=\"gradient\" x2=\"0\" y2=\"100%\">\n" ++
  "    <stop offset=\"0\" stop-color=\"#bbb\" stop-opacity=\"0.1\"/>\n" ++
  "    <stop offset=\"1\" stop-opacity=\"0.1\"/>\n" ++
  "  </linearGradient>\n" ++
  "  <clipPath id=\"round\">\n" ++
  "    <rect width=\"" ++ tenthsStr (totalWidthT q) ++ "\" height=\"" ++ toString heightPx ++
    "\" rx=\"3\" fill=\"#fff\"/>\n" ++
  "  </clipPath>\n" ++
  "  <g clip-path=\"url(#round)\">\n" ++
  "    " ++ "<rect width=\"" ++ tenthsStr (leftWidthT q) ++ "\" height=\"" ++ toString heightPx ++
    "\" fill=\"" ++ q.leftColor ++ "\"/>\n" ++
  "    " ++ "<rect x=\"" ++ tenthsStr (leftWidthT q) ++ "\" width=\"" ++ tenthsStr (rightWidthT q) ++
    "\" height=\"" ++ toString heightPx ++ "\" fill=\"" ++ q.rightColor ++ "\"/>\n" ++
  "    <rect width=\"" ++ tenthsStr (totalWidthT q) ++ "\" height=\"" ++ toString heightPx ++
    "\" fill=\"url(#gradient)\"/>\n" ++
  "  </g>\n" ++
  "  <g fill=\"#fff\" text-anchor=\"middle\" font-family=\"" ++ fontFamily ++
    "\" font-size=\"11\">\n" ++
  "    <text x=\"" ++ tenthsStr (leftTextXT q) ++ "\" y=\"14\" fill=\"#010101\" fill-opacity=\".3\">" ++
    q.leftText ++ "</text>\n" ++
  "    <text x=\"" ++ tenthsStr (leftTextXT q) ++ "\" y=\"13\">" ++ q.leftText ++ "</text>\n" ++
  "    <text x=\"" ++ tenthsStr (rightTextXT q) ++ "\" y=\"14\" fill=\"#010101\" fill-opacity=\".3\">" ++
    q.rightText ++ "</text>\n" ++
  "    <text x=\"" ++ tenthsStr (rightTextXT q) ++ "\" y=\"13\">" ++ q.rightText ++ "</text>\n" ++
  "  </g>\n" ++
  "  " ++ iconSvg ++ "\n</svg>"

/-!
A segmentation of the same template around the three width/height
attribute groups (root `<svg>`, left `<rect>`, right `<rect>`), used to
state that the computed dimensions appear verbatim in the output.
-/

/-- Template up to the root element's `width` attribute. -/
def svgSeg1 : String := "<svg xmlns=\"http://www.w3.org/2000/svg\" "

/-- The root element's dimension attributes. -/
def svgRootDims (q : BadgeParams) : String :=
  "width=\"" ++ tenthsStr (totalWidthT q) ++ "\" height=\"" ++ toString heightPx ++ "\""

/-- Template between the root dimensions and the left rectangle. -/
def svgSeg2 (q : BadgeParams) : String :=
  " role=\"img\" aria-label=\"" ++ q.leftText ++ ": " ++ q.rightText ++ "\">\n" ++
  "  <title>" ++ q.leftText ++ ": " ++ q.rightText ++ "</title>\n" ++
  "  <linearGradient id=\"gradient\" x2=\"0\" y2=\"100%\">\n" ++
  "    <stop offset=\"0\" stop-color=\"#bbb\" stop-opacity=\"0.1\"/>\n" ++
  "    <stop offset=\"1\" stop-opacity=\"0.1\"/>\n" ++
  "  </linearGradient>\n" ++
  "  <clipPath id=\"round\">\n" ++
  "    <rect width=\"" ++ tenthsStr (totalWidthT q) ++ "\" height=\"" ++ toString heightPx ++
    "\" rx=\"3\" fill=\"#fff\"/>\n" ++
  "  </clipPath>\n" ++
  "  <g clip-path=\"url(#round)\">\n" ++
  "    "

/-- The left rectangle with its dimension attributes. -/
def svgLeftRect (q : BadgeParams) : String :=
  "<rect width=\"" ++ tenthsStr (leftWidthT q) ++ "\" height=\"" ++ toString heightPx ++ "\""

/-- Template between the two rectangles. -/
def svgSeg3 (q : BadgeParams) : String :=
  " fill=\"" ++ q.leftColor ++ "\"/>\n" ++ "    "

/-- The right rectangle with its offset and dimension attributes. -/
def svgRightRect (q : BadgeParams) : String :=
  "<rect x=\"" ++ tenthsStr (leftWidthT q) ++ "\" width=\"" ++ tenthsStr (rightWidthT q) ++
    "\" height=\"" ++ toString heightPx ++ "\""

/-- The remainder of the template. -/
def svgSeg4 (q : BadgeParams) : String :=
  " fill=\"" ++ q.rightColor ++ "\"/>\n" ++
  "    <rect width=\"" ++ tenthsStr (totalWidthT q) ++ "\" height=\"" ++ toString heightPx ++
    "\" fill=\"url(#gradient)\"/>\n" ++
  "  </g>\n" ++
  "  <g fill=\"#fff\" text-anchor=\"middle\" font-family=\"" ++ fontFamily ++
    "\" font-size=\"11\">\n" ++
  "    <text x=\"" ++ tenthsStr (leftTextXT q) ++ "\" y=\"14\" fill=\"#010101\" fill-opacity=\".3\">" ++
    q.leftText ++ "</text>\n" ++
  "    <text x=\"" ++ tenthsStr (leftTextXT q) ++ "\" y=\"13\">" ++ q.leftText ++ "</text>\n" ++
  "    <text x=\"" ++ tenthsStr (rightTextXT q) ++ "\" y=\"14\" fill=\"#010101\" fill-opacity=\".3\">" ++
    q.rightText ++ "</text>\n" ++
  "    <text x=\"" ++ tenthsStr (rightTextXT q) ++ "\" y=\"13\">" ++ q.rightText ++ "</text>\n" ++
  "  </g>\n" ++
  "  " ++ (if q.icon ≠ "" then generateCryptoIcon q.icon else "") ++ "\n</svg>"

/-- The backward-compatibility alias applied at the top of
`generateBadgeSVG`: `if (options.text) options.rightText = options.text`. -/
def applyTextAlias (o : BadgeOptions) : BadgeOptions :=
  if o.text ≠ "" then { o with rightText := o.text } else o

/-- `generateBadgeSVG` (throwing the validation error is modelled as
`Except.error`; `validation.params` is populated exactly when
`validation.isValid`). -/
def generateBadgeSVG (options : BadgeOptions) : Except String String :=
  let opts := applyTextAlias options
  let validation := validateBadgeParams opts
  match validation.params with
  | some q => Except.ok (svgOf q)
  | none => Except.error (validation.error.getD "")

/-- The option pre-seeding done by `generateEnhancedBadge`. -/
def enhanceOptions (o : BadgeOptions) : BadgeOptions :=
  { o with
    style := "enhanced"
    icon := if o.icon ≠ "" then o.icon else "crypto"
    rightColor := if o.rightColor ≠ "" then o.rightColor else "#f7931a" }

/-- `generateEnhancedBadge`: pre-seed, then delegate. -/
def generateEnhancedBadge (o : BadgeOptions) : Except String String :=
  generateBadgeSVG (enhanceOptions o)

/-! ### Generic string predicates used by the claims -/

/-- `sub` occurs (contiguously) inside `s`. -/
def strContains (s sub : String) : Prop := sub.data <:+: s.data

instance (s sub : String) : Decidable (strContains s sub) :=
  List.decidableInfix sub.data s.data

/-- `s` is free of the raw characters `< > & " '`. -/
def noDanger (s : String) : Bool := s.data.all (fun c => !(isDangerChar c))

/-! ### Concrete inputs used by counterexamples and witnesses -/

/-- Adversarial right text for which the single-pass keyword removal
reassembles `javascript:`: the pass deletes the `script` at offset 5 of
`javas·script·cript:`, gluing `javas` to `cript:`. -/
def oJsReassembly : BadgeOptions := { rightText := "javasscriptcript:" }

/-- The parameter record `validateBadgeParams` produces for
`oJsReassembly`. -/
def qJsReassembly : BadgeParams :=
  { leftText := "paybadge", rightText := "javascript:", leftColor := "#555",
    rightColor := "#4c1", style := "standard", icon := "" }

/-- An XSS-style probe input for the sanitization-safety witness. -/
def oXssProbe : BadgeOptions :=
  { leftText := "<script>alert(\"xss\")</script>", rightText := "a&b<c>d'e\"f",
    leftColor := "javascript:red", icon := "onload=x" }

/-- What `validateBadgeParams` produces for `oXssProbe`: every
dangerous fragment is stripped. -/
def qXssProbe : BadgeParams :=
  { leftText := "(xss)", rightText := "abdef", leftColor := "#555",
    rightColor := "#4c1", style := "standard", icon := "x" }

/-- 51 `a`s. -/
def fiftyOneAs : String :=
  "aaaaaaaaaaaaaaaaaaaaaaaaaaaaaaaaaaaaaaaaaaaaaaaaaaa"

/-- 50 `a`s. -/
def fiftyAs : String :=
  "aaaaaaaaaaaaaaaaaaaaaaaaaaaaaaaaaaaaaaaaaaaaaaaaaa"

/-- 51 raw characters that URL-decode to the 17-character `AAAAAAAAAAAAAAAAA`. -/
def encodedFiftyOne : String :=
  "%41%41%41%41%41%41%41%41%41%41%41%41%41%41%41%41%41"

/-- The color-validation probe of the spec: invalid left, valid right. -/
def oBadLeftColor : BadgeOptions := { leftColor := "notacolor", rightColor := "#007bff" }

/-- What `validateBadgeParams` produces for `oBadLeftColor`. -/
def qBadLeftColor : BadgeParams :=
  { leftText := "paybadge", rightText := "crypto", leftColor := "#555",
    rightColor := "#4c1", style := "standard", icon := "" }

/-- A validated record with a one-character right text. -/
def qRight1 : BadgeParams :=
  { leftText := "paybadge", rightText := "a", leftColor := "#555",
    rightColor := "#4c1", style := "standard", icon := "" }

/-- A validated record with a twenty-character right text. -/
def qRight20 : BadgeParams :=
  { leftText := "paybadge", rightText := "aaaaaaaaaaaaaaaaaaaa", leftColor := "#555",
    rightColor := "#4c1", style := "standard", icon := "" }

/-- Options supplying both the legacy `text` key and `rightText`. -/
def oBothTexts : BadgeOptions := { rightText := "ignored", text := "status" }

/-- Options supplying `icon` and `rightColor` to the enhanced entry
point. -/
def oEnhancedKept : BadgeOptions := { icon := "bitcoin", rightColor := "#123abc" }

/-- A validated record carrying an unknown (but sanitizer-surviving)
icon identifier. -/
def qUnknownIcon : BadgeParams :=
  { leftText := "paybadge", rightText := "crypto", leftColor := "#555",
    rightColor := "#4c1", style := "standard", icon := "ethereum" }

/-- Options whose icon names an inherited `Object.prototype` member. -/
def oProtoIcon : BadgeOptions := { icon := "toString" }

/-- What `validateBadgeParams` produces for `oProtoIcon` (`toString`
survives sanitization untouched). -/
def qProtoIcon : BadgeParams :=
  { leftText := "paybadge", rightText := "crypto", leftColor := "#555",
    rightColor := "#4c1", style := "standard", icon := "toString" }

/-! ## Helper lemmas -/

theorem noDanger_sanitize_core (l : List Char) :
    noDanger (String.mk ((trimJs (stripDangerChars l)).take MAX_TEXT_LENGTH)) = true := by
  rw [noDanger, List.all_eq_true]
  intro c hc
  have h1 : c ∈ trimJs (stripDangerChars l) := List.mem_of_mem_take hc
  rw [trimJs, List.mem_reverse] at h1
  have h2 := (List.dropWhile_sublist _).subset h1
  rw [List.mem_reverse] at h2
  have h3 := (List.dropWhile_sublist _).subset h2
  rw [stripDangerChars] at h3
  simpa using (List.mem_filter.mp h3).2

theorem noDanger_sanitizeText (s : String) : noDanger (sanitizeText s) = true :=
  noDanger_sanitize_core _

theorem noDanger_orDefault {d : String} (s : String) (hd : noDanger d = true) :
    noDanger (orDefault (sanitizeText s) d) = true := by
  rw [orDefault]
  split
  · exact hd
  · exact noDanger_sanitizeText s

theorem noDanger_sanitizedParams (o : BadgeOptions) :
    noDanger (sanitizedParams o).leftText = true ∧
    noDanger (sanitizedParams o).rightText = true ∧
    noDanger (sanitizedParams o).leftColor = true ∧
    noDanger (sanitizedParams o).rightColor = true ∧
    noDanger (sanitizedParams o).style = true ∧
    noDanger (sanitizedParams o).icon = true := by
  dsimp only [sanitizedParams]
  exact ⟨noDanger_orDefault _ (by decide), noDanger_orDefault _ (by decide),
    noDanger_orDefault _ (by decide), noDanger_orDefault _ (by decide),
    noDanger_orDefault _ (by decide), noDanger_orDefault _ (by decide)⟩

theorem not_contains_script_of_noDanger {s : String} (h : noDanger s = true) :
    ¬ strContains s ("<script") := by
  intro hin
  have hlt : '<' ∈ s.data := hin.sublist.subset (by decide)
  rw [noDanger, List.all_eq_true] at h
  have := h '<' hlt
  simp [isDangerChar] at this

/-- The result record of `validateBadgeParams` in the valid case, made
explicit. -/
theorem validate_params_eq (o : BadgeOptions)
    (hlen : ¬(o.leftText.length > MAX_TEXT_LENGTH ∨ o.rightText.length > MAX_TEXT_LENGTH)) :
    (validateBadgeParams o).params =
      some (if !(colorOk (sanitizedParams o).leftColor) || !(colorOk (sanitizedParams o).rightColor) then
              { sanitizedParams o with leftColor := defaultLeftColor, rightColor := defaultRightColor }
            else sanitizedParams o) := by
  rw [validateBadgeParams, if_neg hlen]

theorem validate_params_some {o : BadgeOptions} {q : BadgeParams}
    (h : (validateBadgeParams o).params = some q) :
    ¬(o.leftText.length > MAX_TEXT_LENGTH ∨ o.rightText.length > MAX_TEXT_LENGTH) ∧
    q = (if !(colorOk (sanitizedParams o).leftColor) || !(colorOk (sanitizedParams o).rightColor) then
          { sanitizedParams o with leftColor := defaultLeftColor, rightColor := defaultRightColor }
         else sanitizedParams o) := by
  by_cases hlen : o.leftText.length > MAX_TEXT_LENGTH ∨ o.rightText.length > MAX_TEXT_LENGTH
  · rw [validateBadgeParams, if_pos hlen] at h
    exact absurd h (by simp)
  · rw [validate_params_eq o hlen] at h
    exact ⟨hlen, (Option.some.injEq _ _ ▸ h).symm⟩

theorem strContains_skip (a : String) {s sub : String} (h : strContains s sub) :
    strContains (a ++ s) sub := by
  obtain ⟨p, t, hp⟩ := h
  refine ⟨a.data ++ p, t, ?_⟩
  rw [String.data_append, ← hp]
  simp [List.append_assoc]

theorem strContains_head (sub rest : String) : strContains (sub ++ rest) sub :=
  ⟨[], rest.data, by simp [String.data_append]⟩

theorem svg_decomposition (q : BadgeParams) :
    svgOf q = svgSeg1 ++ (svgRootDims q ++ (svgSeg2 q ++ (svgLeftRect q ++
      (svgSeg3 q ++ (svgRightRect q ++ svgSeg4 q))))) := by
  simp only [svgOf]
  rw [show ("\" role=\"img\" aria-label=\"" : String) =
        ("\"" : String) ++ (" role=\"img\" aria-label=\"" : String) from rfl,
      show ("\" fill=\"" : String) = ("\"" : String) ++ (" fill=\"" : String) from rfl]
  simp only [svgSeg1, svgRootDims, svgSeg2, svgLeftRect, svgSeg3, svgRightRect, svgSeg4,
    String.append_assoc]

theorem svgRootDims_eq (q : BadgeParams) :
    svgRootDims q = ("width=\"") ++ tenthsStr (totalWidthT q) ++ ("\" height=\"20\"") := by
  simp only [svgRootDims, String.append_assoc]
  rfl

theorem svgLeftRect_eq (q : BadgeParams) :
    svgLeftRect q = ("<rect width=\"") ++ tenthsStr (leftWidthT q) ++ ("\" height=\"20\"") := by
  simp only [svgLeftRect, String.append_assoc]
  rfl

theorem svgRightRect_eq (q : BadgeParams) :
    svgRightRect q = ("<rect x=\"") ++ tenthsStr (leftWidthT q) ++ ("\" width=\"") ++
      tenthsStr (rightWidthT q) ++ ("\" height=\"20\"") := by
  simp only [svgRightRect, String.append_assoc]
  rfl

theorem leftWidth_formula (q : BadgeParams) :
    (leftWidthT q : ℚ) / 10 = max ((q.leftText.length : ℚ) * 11 * 0.6 + 12) 55 := by
  unfold leftWidthT calculateTextWidthT paddingT
  rw [Nat.cast_max, ← max_div_div_right (by norm_num : (0:ℚ) ≤ 10)]
  congr 1
  · push_cast
    ring_nf
  · norm_num

theorem rightWidth_formula (q : BadgeParams) :
    (rightWidthT q : ℚ) / 10 =
      max ((q.rightText.length : ℚ) * 11 * 0.6 + 12 + (if q.icon ≠ "" then (16 : ℚ) else 0)) 55 := by
  by_cases hi : q.icon ≠ ""
  · rw [if_pos hi]
    unfold rightWidthT calculateTextWidthT paddingT iconWidthT
    rw [if_pos hi]
    rw [Nat.cast_max, ← max_div_div_right (by norm_num : (0:ℚ) ≤ 10)]
    congr 1
    · push_cast
      ring_nf
    · norm_num
  · rw [if_neg hi]
    unfold rightWidthT calculateTextWidthT paddingT iconWidthT
    rw [if_neg hi]
    rw [Nat.cast_max, ← max_div_div_right (by norm_num : (0:ℚ) ≤ 10)]
    congr 1
    · push_cast
      ring_nf
    · norm_num

/-! ## Claim theorems -/

/-- C8: `generateBadgeSVG` is deterministic — two invocations on
identical raw input maps produce identical results; the output depends
only on the input (the model is a pure function: no timestamps, no
randomness). -/
theorem generateBadgeSVG_deterministic (o1 o2 : BadgeOptions) (h : o1 = o2) :
    generateBadgeSVG o1 = generateBadgeSVG o2 := by
  rw [h]

theorem generateBadgeSVG_deterministic_witness :
    generateBadgeSVG oBadLeftColor = generateBadgeSVG oBadLeftColor :=
  generateBadgeSVG_deterministic oBadLeftColor oBadLeftColor rfl

/-- C2: `validateBadgeParams` fails with the `TextTooLong` error (its
message naming the 50-character limit, `params = null`) exactly when the
raw, pre-decoded, pre-sanitized `leftText` or `rightText` exceeds 50
characters. -/
theorem validate_length_iff (o : BadgeOptions) :
    (((validateBadgeParams o).isValid = false ∧
      (validateBadgeParams o).params = none ∧
      (validateBadgeParams o).error = some textTooLongMsg) ↔
        (o.leftText.length > 50 ∨ o.rightText.length > 50)) ∧
    strContains textTooLongMsg ("50") := by
  constructor
  · by_cases h : o.leftText.length > MAX_TEXT_LENGTH ∨ o.rightText.length > MAX_TEXT_LENGTH
    · rw [validateBadgeParams, if_pos h]
      exact iff_of_true ⟨rfl, rfl, rfl⟩ (by simpa [MAX_TEXT_LENGTH] using h)
    · rw [validateBadgeParams, if_neg h]
      exact iff_of_false (by simp) (by simpa [MAX_TEXT_LENGTH] using h)
  · decide

theorem validate_length_iff_witness :
    ((validateBadgeParams { leftText := fiftyOneAs }).isValid = false ∧
     (validateBadgeParams { leftText := fiftyOneAs }).params = none ∧
     (validateBadgeParams { leftText := fiftyOneAs }).error = some textTooLongMsg) ∧
    ((validateBadgeParams { leftText := encodedFiftyOne }).isValid = false ∧
     (validateBadgeParams { leftText := encodedFiftyOne }).params = none ∧
     (validateBadgeParams { leftText := encodedFiftyOne }).error = some textTooLongMsg) ∧
    (sanitizeText encodedFiftyOne).length = 17 ∧
    (validateBadgeParams { leftText := fiftyAs }).isValid = true :=
  ⟨(validate_length_iff { leftText := fiftyOneAs }).1.mpr (Or.inl (by decide)),
   (validate_length_iff { leftText := encodedFiftyOne }).1.mpr (Or.inl (by decide)),
   by decide,
   by decide⟩

/-- C6: if both the legacy `text` key and `rightText` are supplied
(non-empty, which is what "supplied" means in a model where an absent
key and the empty string are indistinguishable, as they are to this
code), the right-segment value is taken from `text`: the alias is
applied before validation and sanitization, overwriting `rightText`. -/
theorem text_alias_wins (o : BadgeOptions) (ht : o.text ≠ "") (_hr : o.rightText ≠ "") :
    (applyTextAlias o).rightText = o.text ∧
    generateBadgeSVG o = generateBadgeSVG { o with rightText := o.text } := by
  have halias : applyTextAlias o = { o with rightText := o.text } := by
    rw [applyTextAlias, if_pos ht]
  constructor
  · rw [halias]
  · rw [generateBadgeSVG, generateBadgeSVG, halias]
    have h2 : applyTextAlias { o with rightText := o.text } = { o with rightText := o.text } := by
      rw [applyTextAlias, if_pos ht]
    rw [h2]

theorem text_alias_wins_witness :
    (applyTextAlias oBothTexts).rightText = "status" ∧
    generateBadgeSVG oBothTexts = generateBadgeSVG { oBothTexts with rightText := "status" } :=
  text_alias_wins oBothTexts (by decide) (by decide)

/-- C7: the enhanced entry point pre-seeds `style := "enhanced"`, keeps
a supplied `icon`/`rightColor` and otherwise defaults them to
`"crypto"`/`"#f7931a"`, then delegates to the standard
`generateBadgeSVG` pipeline; with an empty options map the validated
parameters carry exactly those seeded values. -/
theorem enhanced_is_preseeding (o : BadgeOptions) :
    generateEnhancedBadge o = generateBadgeSVG (enhanceOptions o) ∧
    (enhanceOptions o).style = "enhanced" ∧
    (o.icon ≠ "" → (enhanceOptions o).icon = o.icon) ∧
    (o.icon = "" → (enhanceOptions o).icon = "crypto") ∧
    (o.rightColor ≠ "" → (enhanceOptions o).rightColor = o.rightColor) ∧
    (o.rightColor = "" → (enhanceOptions o).rightColor = "#f7931a") ∧
    (validateBadgeParams (enhanceOptions {})).params =
      some { leftText := "paybadge", rightText := "crypto", leftColor := "#555",
             rightColor := "#f7931a", style := "enhanced", icon := "crypto" } := by
  refine ⟨rfl, rfl, ?_, ?_, ?_, ?_, by decide⟩
  · intro h
    show (if o.icon ≠ "" then o.icon else "crypto") = o.icon
    rw [if_pos h]
  · intro h
    show (if o.icon ≠ "" then o.icon else "crypto") = "crypto"
    simp [h]
  · intro h
    show (if o.rightColor ≠ "" then o.rightColor else "#f7931a") = o.rightColor
    rw [if_pos h]
  · intro h
    show (if o.rightColor ≠ "" then o.rightColor else "#f7931a") = "#f7931a"
    simp [h]

theorem enhanced_is_preseeding_witness :
    generateEnhancedBadge oEnhancedKept = generateBadgeSVG (enhanceOptions oEnhancedKept) ∧
    (enhanceOptions oEnhancedKept).style = "enhanced" ∧
    (enhanceOptions oEnhancedKept).icon = "bitcoin" ∧
    (enhanceOptions oEnhancedKept).rightColor = "#123abc" ∧
    (enhanceOptions {}).icon = "crypto" ∧
    (enhanceOptions {}).rightColor = "#f7931a" ∧
    (validateBadgeParams (enhanceOptions {})).params =
      some { leftText := "paybadge", rightText := "crypto", leftColor := "#555",
             rightColor := "#f7931a", style := "enhanced", icon := "crypto" } :=
  ⟨(enhanced_is_preseeding oEnhancedKept).1,
   (enhanced_is_preseeding oEnhancedKept).2.1,
   (enhanced_is_preseeding oEnhancedKept).2.2.1 (by decide),
   (enhanced_is_preseeding oEnhancedKept).2.2.2.2.1 (by decide),
   (enhanced_is_preseeding {}).2.2.2.1 rfl,
   (enhanced_is_preseeding {}).2.2.2.2.2.1 rfl,
   (enhanced_is_preseeding {}).2.2.2.2.2.2⟩

theorem objectProtoLookup_eq_none {name : String}
    (h : name ∉ objectProtoMembers.map Prod.fst) :
    objectProtoLookup name = none := by
  rw [objectProtoLookup]
  have hf : objectProtoMembers.find? (fun p => p.fst == name) = none := by
    rw [List.find?_eq_none]
    intro x hx
    simp only [beq_iff_eq]
    intro heq
    exact h (List.mem_map.mpr ⟨x, hx, heq⟩)
  rw [hf]
  rfl

set_option maxRecDepth 4000 in
/-- C10 counterexample: the bracket lookup `icons[iconType]` resolves
through the prototype chain, so the sanitizer-surviving icon
identifier `toString` (reachable via `options.icon`) makes
`generateCryptoIcon` return the inherited `Object.prototype.toString`
member — a truthy value, so `|| ''` does not fire — whose
stringification is emitted into the SVG instead of no glyph markup. -/
theorem prototype_chain_icon_counterexample :
    sanitizeText ("toString") = "toString" ∧
    (validateBadgeParams oProtoIcon).params = some qProtoIcon ∧
    generateCryptoIcon ("toString") = "function toString() \x7b [native code] \x7d" ∧
    ¬(generateCryptoIcon ("toString") = "") ∧
    strContains (svgOf qProtoIcon) ("function toString() \x7b [native code] \x7d") := by
  refine ⟨by decide, by decide, by decide, by decide, ?_⟩
  have hIcon : (if qProtoIcon.icon ≠ "" then generateCryptoIcon qProtoIcon.icon else "") =
      "function toString() \x7b [native code] \x7d" := by decide
  rw [svg_decomposition qProtoIcon]
  refine strContains_skip _ (strContains_skip _ (strContains_skip _ (strContains_skip _
    (strContains_skip _ (strContains_skip _ ?_)))))
  simp only [svgSeg4, String.append_assoc]
  rw [hIcon]
  iterate 34 apply strContains_skip
  exact strContains_head _ _

/-- C10 amended: for every non-empty icon identifier other than
`"crypto"` and `"bitcoin"` that is not one of the twelve inherited
`Object.prototype` member names (for those, the prototype-chain lookup
returns a truthy inherited member that gets emitted — see the
counterexample), `generateCryptoIcon` yields the empty string (so the
badge carries no glyph markup, and no error is raised); and for every
non-empty icon whatsoever the 16-pixel icon width is still added: the
right segment and total width are exactly as if a known icon were
present. -/
theorem unknown_icon_still_widens (q : BadgeParams)
    (h0 : q.icon ≠ "") (h1 : q.icon ≠ "crypto") (h2 : q.icon ≠ "bitcoin")
    (h3 : q.icon ∉ objectProtoMembers.map Prod.fst) :
    generateCryptoIcon q.icon = "" ∧
    (if q.icon ≠ "" then generateCryptoIcon q.icon else "") = "" ∧
    iconWidthT q = 160 ∧
    rightWidthT q = rightWidthT { q with icon := "crypto" } ∧
    totalWidthT q = totalWidthT { q with icon := "crypto" } := by
  have hg : generateCryptoIcon q.icon = "" := by
    rw [generateCryptoIcon, if_neg h1, if_neg h2, objectProtoLookup_eq_none h3]
  have hw : iconWidthT q = 160 := by rw [iconWidthT, if_pos h0]
  have hw' : iconWidthT { q with icon := "crypto" } = 160 := by
    simp [iconWidthT]
  have hr : rightWidthT q = rightWidthT { q with icon := "crypto" } := by
    rw [rightWidthT, rightWidthT, hw]
    rw [show iconWidthT { q with icon := "crypto" } = 160 from hw']
  refine ⟨hg, by rw [if_pos h0, hg], hw, hr, ?_⟩
  rw [totalWidthT, totalWidthT, hr]
  rfl

/-- C3: if either sanitized color fails `^#[0-9A-Fa-f]{3,6}$`, both
colors are reset to the defaults `"#555"` and `"#4c1"` (coupled
fallback), and consequently every successful result has two
pattern-conforming colors. -/
theorem coupled_color_fallback (o : BadgeOptions) (q : BadgeParams)
    (h : (validateBadgeParams o).params = some q) :
    (colorOk q.leftColor = true ∧ colorOk q.rightColor = true) ∧
    ((colorOk (sanitizedParams o).leftColor = false ∨
      colorOk (sanitizedParams o).rightColor = false) →
      q.leftColor = "#555" ∧ q.rightColor = "#4c1") := by
  obtain ⟨-, hq⟩ := validate_params_some h
  by_cases hc : (!(colorOk (sanitizedParams o).leftColor) ||
      !(colorOk (sanitizedParams o).rightColor)) = true
  · rw [if_pos hc] at hq
    subst hq
    refine ⟨⟨?_, ?_⟩, fun _ => ⟨rfl, rfl⟩⟩
    · show colorOk defaultLeftColor = true
      decide
    · show colorOk defaultRightColor = true
      decide
  · rw [if_neg hc] at hq
    subst hq
    simp only [Bool.or_eq_true, Bool.not_eq_true', not_or, Bool.not_eq_false] at hc
    refine ⟨⟨hc.1, hc.2⟩, fun hbad => ?_⟩
    rcases hbad with hbad | hbad
    · rw [hc.1] at hbad; cases hbad
    · rw [hc.2] at hbad; cases hbad

theorem coupled_color_fallback_witness :
    ((colorOk qBadLeftColor.leftColor = true ∧ colorOk qBadLeftColor.rightColor = true) ∧
     qBadLeftColor.leftColor = "#555" ∧ qBadLeftColor.rightColor = "#4c1") ∧
    sanitizeText ("notacolor") = "notacolor" ∧
    sanitizeText ("#007bff") = "#007bff" ∧
    colorOk ("#007bff") = true := by
  have h := coupled_color_fallback oBadLeftColor qBadLeftColor (by decide)
  exact ⟨⟨h.1, h.2 (Or.inl (by decide))⟩, by decide, by decide, by decide⟩

/-- C4: for every parameter record (in particular every validated one),
the layout used by `generateBadgeSVG` satisfies
`leftWidth = max(leftText.length * 11 * 0.6 + 12, 55)`,
`rightWidth = max(rightText.length * 11 * 0.6 + 12 + iconWidth, 55)`
with `iconWidth = 16` exactly when an icon is set, and
`totalWidth = leftWidth + rightWidth` at fixed height 20; the rendered
`totalWidth`, `leftWidth` and `rightWidth` appear verbatim as the
root-svg and rectangle dimension attributes of the emitted SVG. -/
theorem layout_and_dimensions (q : BadgeParams) :
    (leftWidthT q : ℚ) / 10 = max ((q.leftText.length : ℚ) * 11 * 0.6 + 12) 55 ∧
    (rightWidthT q : ℚ) / 10 =
      max ((q.rightText.length : ℚ) * 11 * 0.6 + 12 + (if q.icon ≠ "" then (16 : ℚ) else 0)) 55 ∧
    totalWidthT q = leftWidthT q + rightWidthT q ∧
    heightPx = 20 ∧
    strContains (svgOf q) (("width=\"") ++ tenthsStr (totalWidthT q) ++ ("\" height=\"20\"")) ∧
    strContains (svgOf q) (("<rect width=\"") ++ tenthsStr (leftWidthT q) ++ ("\" height=\"20\"")) ∧
    strContains (svgOf q) (("<rect x=\"") ++ tenthsStr (leftWidthT q) ++ ("\" width=\"") ++
      tenthsStr (rightWidthT q) ++ ("\" height=\"20\"")) := by
  refine ⟨leftWidth_formula q, rightWidth_formula q, rfl, rfl, ?_, ?_, ?_⟩
  · rw [svg_decomposition q, ← svgRootDims_eq q]
    exact strContains_skip _ (strContains_head _ _)
  · rw [svg_decomposition q, ← svgLeftRect_eq q]
    exact strContains_skip _ (strContains_skip _ (strContains_skip _ (strContains_head _ _)))
  · rw [svg_decomposition q, ← svgRightRect_eq q]
    exact strContains_skip _ (strContains_skip _ (strContains_skip _ (strContains_skip _
      (strContains_skip _ (strContains_head _ _)))))

/-- C5 counterexample: with `rightText` of lengths 1 and 20 and all
other parameters equal, the two `rightWidth` values are 55 and 144
pixels — a difference of 89, which is smaller than the claimed lower
bound `19 * 11 * 0.6 = 125.4` (the minimum-width clamp at 55 absorbs
part of the scaling). -/
theorem layout_scaling_counterexample :
    (validateBadgeParams { rightText := "a" }).params = some qRight1 ∧
    (validateBadgeParams { rightText := "aaaaaaaaaaaaaaaaaaaa" }).params = some qRight20 ∧
    rightWidthT qRight1 = 550 ∧ rightWidthT qRight20 = 1440 ∧
    ¬(19 * 11 * (0.6 : ℚ) ≤
        (rightWidthT qRight20 : ℚ) / 10 - (rightWidthT qRight1 : ℚ) / 10) := by
  have h1 : rightWidthT qRight1 = 550 := by decide
  have h20 : rightWidthT qRight20 = 1440 := by decide
  refine ⟨by decide, by decide, h1, h20, ?_⟩
  rw [h1, h20]
  norm_num

/-- C5 amended: for right texts of lengths 1 and 20 (same icon setting,
all other parameters equal) the `rightWidth` values differ by at least
`20 * 11 * 0.6 + 12 - 55 = 89` pixels — not the claimed `125.4`, since
the length-1 width is clamped up to the 55 minimum — and both are at
least 55. -/
theorem layout_scaling_amended (q1 q2 : BadgeParams)
    (h1 : q1.rightText.length = 1) (h2 : q2.rightText.length = 20)
    (hi : q1.icon = q2.icon) :
    (rightWidthT q2 : ℚ) / 10 - (rightWidthT q1 : ℚ) / 10 ≥ 89 ∧
    (rightWidthT q1 : ℚ) / 10 ≥ 55 ∧ (rightWidthT q2 : ℚ) / 10 ≥ 55 := by
  have hiw : iconWidthT q1 = iconWidthT q2 := by
    rw [iconWidthT, iconWidthT, hi]
  have hbound : iconWidthT q1 ≤ 160 := by
    rw [iconWidthT]; split <;> omega
  have e1 : rightWidthT q1 = 550 := by
    rw [rightWidthT, calculateTextWidthT, h1]
    exact Nat.max_eq_right (by unfold paddingT; omega)
  have e2 : rightWidthT q2 = 1440 + iconWidthT q1 := by
    rw [rightWidthT, calculateTextWidthT, h2, hiw]
    rw [Nat.max_eq_left (by unfold paddingT; omega)]
    rw [← hiw]
    unfold paddingT
    omega
  rw [e1, e2]
  have hc : (0 : ℚ) ≤ (iconWidthT q1 : ℚ) := Nat.cast_nonneg _
  push_cast
  constructor
  · linarith
  constructor
  · norm_num
  · linarith

theorem layout_scaling_amended_witness :
    (rightWidthT qRight20 : ℚ) / 10 - (rightWidthT qRight1 : ℚ) / 10 ≥ 89 ∧
    (rightWidthT qRight1 : ℚ) / 10 ≥ 55 ∧ (rightWidthT qRight20 : ℚ) / 10 ≥ 55 :=
  layout_scaling_amended qRight1 qRight20 (by decide) (by decide) (by decide)

theorem svgOf_congr (q1 q2 : BadgeParams) (h1 : q1.leftText = q2.leftText)
    (h2 : q1.rightText = q2.rightText) (h3 : q1.leftColor = q2.leftColor)
    (h4 : q1.rightColor = q2.rightColor) (h5 : q1.icon = q2.icon) :
    svgOf q1 = svgOf q2 := by
  obtain ⟨a1, b1, c1, d1, st1, i1⟩ := q1
  obtain ⟨a2, b2, c2, d2, st2, i2⟩ := q2
  dsimp only at h1 h2 h3 h4 h5
  subst h1; subst h2; subst h3; subst h4; subst h5
  rfl

theorem applyTextAlias_style (o : BadgeOptions) (s : String) :
    applyTextAlias { o with style := s } = { applyTextAlias o with style := s } := by
  by_cases ht : o.text = ""
  · have h1 : ¬(({ o with style := s } : BadgeOptions).text ≠ "") := by simpa using ht
    have h2 : ¬(o.text ≠ "") := by simpa using ht
    rw [applyTextAlias, if_neg h1, applyTextAlias, if_neg h2]
  · have h1 : ({ o with style := s } : BadgeOptions).text ≠ "" := by simpa using ht
    rw [applyTextAlias, if_pos h1, applyTextAlias, if_pos ht]

/-- C9: the emitted SVG is independent of the `style` parameter — two
input maps differing only in `style` produce identical results (the
validated style field is never read during layout or emission). -/
theorem style_independent (o : BadgeOptions) (s1 s2 : String) :
    generateBadgeSVG { o with style := s1 } = generateBadgeSVG { o with style := s2 } := by
  have h1 := applyTextAlias_style o s1
  have h2 := applyTextAlias_style o s2
  rw [generateBadgeSVG, generateBadgeSVG, h1, h2]
  rw [validateBadgeParams, validateBadgeParams]
  dsimp only [sanitizedParams]
  by_cases hlen : (applyTextAlias o).leftText.length > MAX_TEXT_LENGTH ∨
      (applyTextAlias o).rightText.length > MAX_TEXT_LENGTH
  · rw [if_pos hlen, if_pos hlen]
  · rw [if_neg hlen, if_neg hlen]
    dsimp only [sanitizedParams]
    by_cases hcol : (!(colorOk (orDefault (sanitizeText (applyTextAlias o).leftColor) defaultLeftColor)) ||
        !(colorOk (orDefault (sanitizeText (applyTextAlias o).rightColor) defaultRightColor))) = true
    · rw [if_pos hcol, if_pos hcol]
      exact congrArg Except.ok (svgOf_congr _ _ rfl rfl rfl rfl rfl)
    · rw [if_neg hcol, if_neg hcol]
      exact congrArg Except.ok (svgOf_congr _ _ rfl rfl rfl rfl rfl)

set_option maxRecDepth 4000 in
/-- C1 counterexample: the keyword-removal pass is a single
left-to-right scan, so deleting the `script` in the middle of
`javasscriptcript:` glues the surrounding pieces into `javascript:`,
which survives every later pass; the emitted SVG therefore contains the
substring `javascript:` originating from `rightText`. -/
theorem javascript_reassembly_counterexample :
    sanitizeText ("javasscriptcript:") = "javascript:" ∧
    (generateBadgeSVG oJsReassembly).toOption = some (svgOf qJsReassembly) ∧
    strContains (svgOf qJsReassembly) ("javascript:") := by
  refine ⟨by decide, by decide, by decide⟩

/-- C1 amended: every field of a successfully validated parameter
record is free of the raw characters `< > & " '` (the final
character-stripping pass deletes every occurrence, and all defaults are
clean), so no user-controlled field can contribute `<script`, one of
those five characters, or any markup break-out to the emitted SVG;
however, the substring `javascript:` CAN survive sanitization (see the
counterexample), so that clause of the original claim is dropped. -/
theorem sanitized_fields_safe (o : BadgeOptions) (q : BadgeParams)
    (h : (validateBadgeParams o).params = some q) :
    noDanger q.leftText = true ∧ noDanger q.rightText = true ∧
    noDanger q.leftColor = true ∧ noDanger q.rightColor = true ∧
    noDanger q.style = true ∧ noDanger q.icon = true ∧
    ¬ strContains q.leftText ("<script") ∧ ¬ strContains q.rightText ("<script") := by
  obtain ⟨-, hq⟩ := validate_params_some h
  obtain ⟨hL, hR, hLC, hRC, hS, hI⟩ := noDanger_sanitizedParams o
  by_cases hc : (!(colorOk (sanitizedParams o).leftColor) ||
      !(colorOk (sanitizedParams o).rightColor)) = true
  · rw [if_pos hc] at hq
    subst hq
    dsimp only
    exact ⟨hL, hR, by decide, by decide, hS, hI,
      not_contains_script_of_noDanger hL, not_contains_script_of_noDanger hR⟩
  · rw [if_neg hc] at hq
    subst hq
    exact ⟨hL, hR, hLC, hRC, hS, hI,
      not_contains_script_of_noDanger hL, not_contains_script_of_noDanger hR⟩

theorem sanitized_fields_safe_witness :
    noDanger qXssProbe.leftText = true ∧ noDanger qXssProbe.rightText = true ∧
    noDanger qXssProbe.leftColor = true ∧ noDanger qXssProbe.rightColor = true ∧
    noDanger qXssProbe.style = true ∧ noDanger qXssProbe.icon = true ∧
    ¬ strContains qXssProbe.leftText ("<script") ∧
    ¬ strContains qXssProbe.rightText ("<script") :=
  sanitized_fields_safe oXssProbe qXssProbe (by decide)

theorem unknown_icon_still_widens_witness :
    generateCryptoIcon qUnknownIcon.icon = "" ∧
    (if qUnknownIcon.icon ≠ "" then generateCryptoIcon qUnknownIcon.icon else "") = "" ∧
    iconWidthT qUnknownIcon = 160 ∧
    rightWidthT qUnknownIcon = rightWidthT { qUnknownIcon with icon := "crypto" } ∧
    totalWidthT qUnknownIcon = totalWidthT { qUnknownIcon with icon := "crypto" } :=
  unknown_icon_still_widens qUnknownIcon (by decide) (by decide) (by decide) (by decide)

end PayBadge
